import Mathlib

/-!
Verification of the About-Me-Generator core (prompt composer, Groq completion
client, and the submit handler's variation-counter state machine).

The definitions below are a shallow embedding of `code.py`:
* external effects (the HTTP call, `random.random()`, `datetime.now()`) become
  explicit parameters (`NetResult`, `r : ℚ`, `now : String`);
* the Python dict of form data becomes an association list with a
  Python-style `get`;
* `st.error` messages become an explicit list of surfaced messages.
-/

/-- The `message` object of a choice. -/
structure GroqMessage where
  content : Option String

/-- One element of the `choices` array. -/
structure GroqChoice where
  message : Option GroqMessage

/-- A parsed 200-response JSON body, restricted to the fields the source
reads: `choices[i].message.content`, each level possibly absent. -/
structure GroqBody where
  choices : Option (List GroqChoice)

/-- The parts of the `requests` response object the source reads:
`status_code`, `text`, and the result of `response.json()` (`Except.error`
models `json()` raising, with the exception message). -/
structure HttpResponse where
  status : Nat
  text : String
  json : Except String GroqBody

/-- Outcome of the single `requests.post` call made per invocation:
either a response object, or one of the exceptions caught by the source
(`requests.exceptions.Timeout`, `requests.exceptions.ConnectionError`,
or any other exception carrying its `str(e)` message). -/
inductive NetResult where
  | ok (resp : HttpResponse)
  | timeout
  | connError
  | exc (msg : String)

/-- Python `text[:100]`: the first `n` characters of a string. -/
def takeChars (s : String) (n : Nat) : String :=
  String.mk (s.data.take n)

/-- Python `str.strip()`: remove leading and trailing whitespace. -/
def pyStrip (s : String) : String :=
  String.mk (((s.data.dropWhile Char.isWhitespace).reverse.dropWhile
    Char.isWhitespace).reverse)

/-- `result.get("choices", [{}])[0].get("message", {}).get("content", "").strip()`
(source line 85).  `Except.error` models the `IndexError` raised when
`choices` is present but empty (`[{}]` is only the default for an absent key). -/
def extract_content (body : GroqBody) : Except String String :=
  match body.choices with
  | none => Except.ok (pyStrip "")
  | some [] => Except.error "list index out of range"
  | some (c :: _) =>
      Except.ok (pyStrip (((c.message.getD ⟨none⟩).content).getD ""))

/-- `check_groq_connection` (source lines 24-50), with the API key and the
network outcome passed explicitly.  Returns the `(ok, message)` pair. -/
def check_groq_connection (apiKey : String) (net : NetResult) : Bool × String :=
  if apiKey = "" then
    (false, "API key not configured. Please set GROQ_API_KEY in your environment variables.")
  else
    match net with
    | NetResult.ok resp =>
        if resp.status = 200 then (true, "Connected")
        else (false, "Status: " ++ toString resp.status ++ " - " ++ takeChars resp.text 100)
    | NetResult.timeout => (false, "Connection timeout")
    | NetResult.connError => (false, "Connection error")
    | NetResult.exc e => (false, "Error: " ++ e)

/-- `generate_with_groq` (source lines 52-98), with the API key and the
network outcome passed explicitly.  First component is the Python return
value (`None` or the extracted text); second component is the list of
`st.error` messages surfaced, in order. -/
def generate_with_groq (apiKey : String) (net : NetResult) :
    Option String × List String :=
  if apiKey = "" then
    (none, ["❌ GROQ_API_KEY not configured"])
  else
    match net with
    | NetResult.ok resp =>
        if resp.status = 200 then
          match resp.json with
          | Except.ok body =>
              match extract_content body with
              | Except.ok s => (some s, [])
              | Except.error e => (none, ["❌ Error generating content: " ++ e])
          | Except.error e => (none, ["❌ Error generating content: " ++ e])
        else
          (none, ["Groq API returned status code: " ++ toString resp.status,
                  "Response: " ++ resp.text])
    | NetResult.timeout => (none, ["⏱️ Generation timed out"])
    | NetResult.connError => (none, ["🔌 Cannot connect to Groq API"])
    | NetResult.exc e => (none, ["❌ Error generating content: " ++ e])

/-- Python `d.get(k)` on the form-data dict (no default): the value at the
first matching key, if any. -/
def dget? (d : List (String × String)) (k : String) : Option String :=
  (d.find? (fun p => p.1 == k)).map Prod.snd

/-- Python `d.get(k, dflt)` on the form-data dict. -/
def dget (d : List (String × String)) (k dflt : String) : String :=
  (dget? d k).getD dflt

/-- The fixed ordered list of style directives (source lines 114-125). -/
def variation_styles : List String :=
  ["Lead with achievements and quantifiable results. Start with your strongest accomplishment.",
   "Open with your passion and what drives you. Emphasize commitment and enthusiasm.",
   "Begin by highlighting your unique competitive advantages and specialized skills.",
   "Start with your adaptability and how you embrace new challenges and learning.",
   "Open with a problem you solved or impact you created. Focus on outcomes.",
   "Lead with your professional identity and what makes you stand out in your field.",
   "Begin with your career goals and how your background prepares you for them.",
   "Start by describing your professional journey and key milestones.",
   "Open with your technical expertise and how you apply it effectively.",
   "Lead with your collaborative strengths and team contributions."]

/-- `variation_styles[variation_number % len(variation_styles)]`
(source line 128). -/
def variation_style_of (variation_number : Nat) : String :=
  variation_styles.getD (variation_number % variation_styles.length) ""

/-- The market classification on the aspiration value (source lines 105-108). -/
def classify_market (aspiration : String) : String :=
  if aspiration = "Interested in studying abroad" ∨ aspiration = "Work as a freelancer"
  then "International" else "Pakistan"

/-- `target_market` as computed from the form data (source lines 104-108). -/
def target_market_of (data : List (String × String)) : String :=
  classify_market (dget data "aspiration" "")

/-- The aspiration-specific guidance with the style directive appended
(source lines 130-144). -/
def aspiration_guidance_of (aspiration : String) (variation_number : Nat) : String :=
  (if aspiration = "Interested in studying abroad" then
    "Emphasize academic achievements, research interests, international aspirations, adaptability, and desire for global education. Highlight qualifications that make them a strong candidate for international universities."
  else if aspiration = "Want to serve Family Business" then
    "Focus on family business values, loyalty, entrepreneurial mindset, relevant skills for business growth, and commitment to continuing family legacy. Show blend of tradition and innovation."
  else if aspiration = "New Start-up (Business)" then
    "Highlight entrepreneurial spirit, innovation, problem-solving skills, leadership qualities, risk-taking abilities, and vision for creating new ventures. Show passion for building something new."
  else if aspiration = "Work as a freelancer" then
    "Emphasize self-motivation, diverse skill set, flexibility, client management abilities, independent work style, and track record of delivering projects. Show versatility and reliability."
  else if aspiration = "Interested in Job" then
    "Focus on professional qualifications, team collaboration, career growth mindset, organizational skills, and readiness to contribute to company success. Show you're a valuable employee."
  else if aspiration = "Want to continue studies in Pakistan" then
    "Highlight academic dedication, research interests, commitment to local education system, desire for advanced knowledge, and contributions to Pakistan's academic community."
  else "")
  ++ " " ++ variation_style_of variation_number

/-- The system prompt (source lines 146-149). -/
def system_prompt_of (data : List (String × String)) (variation_number : Nat) : String :=
  ("You are an expert CV writer for " ++ target_market_of data
    ++ " job markets. \nAlways write exactly 70 words. Write in first person perspective.\nCreate a unique and compelling narrative each time, varying sentence structure and emphasis.\n")
  ++ ("Variation #" ++ toString (variation_number + 1))
  ++ " - Make this version distinctly different from previous versions."

/-- The user prompt (source lines 151-200). -/
def user_prompt_of (data : List (String × String)) (variation_number : Nat) : String :=
  "\nGenerate a professional CV \"About Me\" section for someone with the following profile:\n\nTARGET MARKET: "
  ++ target_market_of data
  ++ "\nCAREER ASPIRATION: " ++ dget data "aspiration" ""
  ++ "\n" ++ aspiration_guidance_of (dget data "aspiration" "") variation_number
  ++ "\n\nEDUCATION:\nUniversity: " ++ dget data "university" "N/A"
  ++ "\nMajor Subject: " ++ dget data "major_subject" "N/A"
  ++ "\nStatus: " ++ dget data "degree_status" ""
  ++ "\nPass out: " ++ dget data "passout_session" "N/A"
  ++ "\nFinal Year Project: " ++ dget data "final_year_project" "N/A"
  ++ "\n\nEXPERIENCE:\nOrganization: " ++ dget data "organization" "N/A"
  ++ "\nDesignation: " ++ dget data "designation" ""
  ++ "\nYears: " ++ dget data "experience_years" ""
  ++ "\nStatus: " ++ dget data "experience_status" ""
  ++ "\nIndustry: " ++ dget data "industry" ""
  ++ "\nWork Detail: " ++ dget data "work_detail" "N/A"
  ++ "\n\nSKILLS & INTERESTS:\nTechnical Skills: " ++ dget data "technical_skills" ""
  ++ "\nIT Skills: " ++ dget data "it_skills" "N/A"
  ++ "\nInterests: " ++ dget data "interests" "N/A"
  ++ "\nCertifications: " ++ dget data "certifications" "N/A"
  ++ "\nAwards: " ++ dget data "medal_holder" "N/A"
  ++ "\n\nACHIEVEMENTS:\n" ++ dget data "achievements" ""
  ++ "\n\nHONOURS:\n" ++ dget data "honours" "N/A"
  ++ "\n\nREFERENCES:\nName: " ++ dget data "ref_name" "N/A"
  ++ "\nDesignation: " ++ dget data "ref_designation" "N/A"
  ++ "\nOrganization: " ++ dget data "ref_organization" "N/A"
  ++ "\n\nCRITICAL REQUIREMENTS:\n1. Write exactly 70 words\n2. Write in first person perspective\n3. Tailor the content specifically for "
  ++ target_market_of data
  ++ " market\n4. Make the aspiration (" ++ dget data "aspiration" ""
  ++ ") clear and central to the narrative\n5. Use appropriate tone for "
  ++ target_market_of data
  ++ " market (Pakistan: formal and respectful, International: direct and results-focused)\n6. Create a UNIQUE version - vary the opening, structure, and emphasis from typical CV summaries\n\nVARIATION INSTRUCTION: This is variation #"
  ++ toString (variation_number + 1)
  ++ ". Make it distinctly different by using alternative phrasing and different angle of emphasis.\n"

/-- `temperature = 0.85 + (random.random() * 0.15)` (source line 203), with
the fresh uniform draw `r` in `[0, 1)` passed explicitly and real arithmetic
idealized over the rationals. -/
def temperature (r : ℚ) : ℚ := 0.85 + r * 0.15

/-- The record returned by `generate_cv_sections` on success
(source lines 207-215). -/
structure GeneratedResult where
  text : String
  timestamp : String
  designation : String
  market : String
  aspiration : String
  university : String
  variation : Nat
deriving DecidableEq

/-- `generate_cv_sections` (source lines 100-217), with the completion
client, the random draw and the clock passed explicitly.  `if text:` in the
source is falsy exactly on `None` and the empty string. -/
def generate_cv_sections (client : String → String → ℚ → Option String)
    (r : ℚ) (now : String) (data : List (String × String))
    (variation_number : Nat) : Option GeneratedResult :=
  match client (user_prompt_of data variation_number)
      (system_prompt_of data variation_number) (temperature r) with
  | some text =>
      if text = "" then none
      else some
        { text := text
          timestamp := now
          designation := dget data "designation" ""
          market := target_market_of data
          aspiration := dget data "aspiration" ""
          university := dget data "university" ""
          variation := variation_number + 1 }
  | none => none

/-- The deployed composition: `generate_cv_sections` with `generate_with_groq`
as the completion client, `net` being the outcome of the one network
interaction of the call. -/
def full_generate (apiKey : String) (net : NetResult) (r : ℚ) (now : String)
    (data : List (String × String)) (variation_number : Nat) :
    Option GeneratedResult :=
  generate_cv_sections (fun _ _ _ => (generate_with_groq apiKey net).1)
    r now data variation_number

/-- The 22 widget values read by the submit handler (source lines 315-368). -/
structure FormFields where
  university : String
  major_subject : String
  degree_status : String
  passout_session : String
  final_year_project : String
  organization : String
  designation : String
  experience_years : String
  experience_status : String
  industry : String
  work_detail : String
  technical_skills : String
  it_skills : String
  interests : String
  certifications : String
  medal_holder : String
  achievements : String
  honours : String
  ref_name : String
  ref_designation : String
  ref_organization : String
  aspiration : String
deriving DecidableEq

/-- The `form_data` dict built on submission (source lines 377-400),
in source key order. -/
def build_form_data (f : FormFields) : List (String × String) :=
  [("university", f.university),
   ("major_subject", f.major_subject),
   ("degree_status", f.degree_status),
   ("passout_session", f.passout_session),
   ("final_year_project", f.final_year_project),
   ("organization", f.organization),
   ("designation", f.designation),
   ("experience_years", f.experience_years),
   ("experience_status", f.experience_status),
   ("industry", f.industry),
   ("work_detail", f.work_detail),
   ("technical_skills", f.technical_skills),
   ("it_skills", f.it_skills),
   ("interests", f.interests),
   ("certifications", f.certifications),
   ("medal_holder", f.medal_holder),
   ("achievements", f.achievements),
   ("honours", f.honours),
   ("ref_name", f.ref_name),
   ("ref_designation", f.ref_designation),
   ("ref_organization", f.ref_organization),
   ("aspiration", f.aspiration)]

/-- The session state owned by the calling session
(source lines 290-295): last result, last stored form dict, and the
variation counter.  Its initial value is `none`, `[]` (the empty dict), `0`. -/
structure SessionState where
  generated_section : Option GeneratedResult
  form_data : List (String × String)
  variation_count : Nat
deriving DecidableEq

/-- `form_changed` (source line 403):
`st.session_state.form_data.get('aspiration') != aspiration or
st.session_state.form_data != form_data`. -/
def form_changed (state : SessionState) (f : FormFields) : Bool :=
  decide (dget? state.form_data "aspiration" ≠ some f.aspiration)
  || decide (state.form_data ≠ build_form_data f)

/-- The form submit handler (source lines 372-419): validation of
`achievements`, form-change detection, counter reset, one generation call,
and the post-success counter increment.  Returns the new session state and
the list of error messages the handler itself surfaces. -/
def submit_handler (client : String → String → ℚ → Option String) (r : ℚ)
    (now : String) (state : SessionState) (f : FormFields) :
    SessionState × List String :=
  if f.achievements = "" then
    (state, ["Please fill in all required fields (marked with *)"])
  else
    let form_data := build_form_data f
    let state1 : SessionState :=
      { state with
        form_data := form_data
        variation_count := if form_changed state f then 0 else state.variation_count }
    match generate_cv_sections client r now form_data state1.variation_count with
    | some gs =>
        ({ state1 with
           generated_section := some gs
           variation_count := state1.variation_count + 1 }, [])
    | none => (state1, [])

/-- Concrete fixture: the initial session state. -/
def state0 : SessionState :=
  { generated_section := none, form_data := [], variation_count := 0 }

/-- Concrete fixture: a filled form with a non-empty achievements field and
the aspiration of the spec's end-to-end scenario. -/
def sampleFields : FormFields :=
  { university := "LUMS", major_subject := "Computer Science"
    degree_status := "Completed", passout_session := "2023"
    final_year_project := "Smart Attendance System", organization := "TechSol"
    designation := "Software Engineer", experience_years := "2 years"
    experience_status := "Current", industry := "Information Technology"
    work_detail := "Responsible for developing web applications"
    technical_skills := "Python, SQL", it_skills := "Microsoft Office"
    interests := "Reading, Technology", certifications := "AWS Certified"
    medal_holder := "Gold Medalist", achievements := "Won X award"
    honours := "Graduated with Distinction", ref_name := "Dr. Sarah Khan"
    ref_designation := "Professor", ref_organization := "LUMS"
    aspiration := "New Start-up (Business)" }

/-- Concrete fixture: the same form with the achievements field left empty. -/
def emptyAchFields : FormFields :=
  { sampleFields with achievements := "" }

/-- Concrete fixture: a completion client that always succeeds. -/
def okClient : String → String → ℚ → Option String := fun _ _ _ => some "hello"

/-- Concrete fixture: a completion client that always fails. -/
def noneClient : String → String → ℚ → Option String := fun _ _ _ => none

/-- Concrete fixture: the mocked completion service of the spec's
end-to-end scenario. -/
def startupClient : String → String → ℚ → Option String :=
  fun _ _ _ => some "I am an aspiring entrepreneur..."

/-- Concrete fixture: the profile dict of the spec's end-to-end scenario. -/
def startup_data : List (String × String) :=
  [("aspiration", "New Start-up (Business)"), ("achievements", "Won X award")]

/-- Concrete fixture: a 150-character response body. -/
def longBody : String := String.mk (List.replicate 150 'a')

/-- `s` contains `pat` as a contiguous substring. -/
def ContainsSub (s pat : String) : Prop :=
  ∃ pre post : String, s = pre ++ pat ++ post

/-- Claim C1: the style directive is selected as `variation_styles[n % 10]`
from a fixed ordered list of exactly 10 distinct entries, deterministically;
for indices `n < m` with `m - n < 10` the selected directives differ. -/
theorem style_selection_mod10 (n m : Nat) (h1 : n < m) (h2 : m - n < 10) :
    variation_styles.length = 10 ∧ variation_styles.Nodup ∧
    variation_style_of n = variation_styles.getD (n % 10) "" ∧
    variation_style_of n ≠ variation_style_of m := by
  have key : ∀ i, i < 10 → ∀ j, j < 10 → i ≠ j →
      variation_styles.getD i "" ≠ variation_styles.getD j "" := by decide
  have hne : n % 10 ≠ m % 10 := by omega
  exact ⟨rfl, by decide, rfl,
    key (n % 10) (Nat.mod_lt _ (by norm_num)) (m % 10) (Nat.mod_lt _ (by norm_num)) hne⟩

/-- Witness for C1 at `n = 0`, `m = 1`. -/
theorem style_selection_mod10_witness :
    0 < 1 ∧ 1 - 0 < 10 ∧
    (variation_styles.length = 10 ∧ variation_styles.Nodup ∧
     variation_style_of 0 = variation_styles.getD (0 % 10) "" ∧
     variation_style_of 0 ≠ variation_style_of 1) :=
  ⟨by decide, by decide, style_selection_mod10 0 1 (by decide) (by decide)⟩

/-- Claim C2: the market is "International" exactly for the study-abroad and
freelancer aspirations, and "Pakistan" for every other aspiration value. -/
theorem market_classification (a : String) :
    (classify_market a = "International" ↔
      (a = "Interested in studying abroad" ∨ a = "Work as a freelancer")) ∧
    (¬(a = "Interested in studying abroad" ∨ a = "Work as a freelancer") →
      classify_market a = "Pakistan") := by
  unfold classify_market
  by_cases hm : a = "Interested in studying abroad" ∨ a = "Work as a freelancer"
  · rw [if_pos hm]
    exact ⟨⟨fun _ => hm, fun _ => rfl⟩, fun hn => absurd hm hn⟩
  · rw [if_neg hm]
    exact ⟨⟨fun he => absurd he (by decide), fun hh => absurd hh hm⟩, fun _ => rfl⟩

/-- Witness for C2 at one local-market aspiration and one international one. -/
theorem market_classification_witness :
    ¬(("Interested in Job" : String) = "Interested in studying abroad" ∨
      ("Interested in Job" : String) = "Work as a freelancer") ∧
    classify_market "Interested in Job" = "Pakistan" ∧
    classify_market "Work as a freelancer" = "International" :=
  ⟨by decide, (market_classification "Interested in Job").2 (by decide),
   (market_classification "Work as a freelancer").1.2 (Or.inr rfl)⟩

/-- Claim C4: the sampled temperature equals `0.85 + r * 0.15` for the fresh
draw `r` in `[0, 1)`, hence lies in `[0.85, 1)`; it takes no variation index. -/
theorem temperature_formula_range (r : ℚ) (h0 : 0 ≤ r) (h1 : r < 1) :
    temperature r = 0.85 + r * 0.15 ∧
    0.85 ≤ temperature r ∧ temperature r < 1 := by
  refine ⟨rfl, ?_, ?_⟩ <;> unfold temperature <;> nlinarith

/-- Witness for C4 at `r = 1/2`. -/
theorem temperature_formula_range_witness :
    (0 : ℚ) ≤ 1/2 ∧ (1/2 : ℚ) < 1 ∧
    (temperature (1/2) = 0.85 + (1/2) * 0.15 ∧
     0.85 ≤ temperature (1/2) ∧ temperature (1/2) < 1) :=
  ⟨by norm_num, by norm_num, temperature_formula_range (1/2) (by norm_num) (by norm_num)⟩

/-- Claim C5: a missing API key fails with `None` independently of any network
outcome; otherwise the one network outcome of the call is classified mutually
exclusively as timeout, connection failure, non-2xx response, or generic
exception, each classification returning `None`. -/
theorem groq_failure_classification (apiKey : String) (hk : apiKey ≠ "") :
    (∀ net : NetResult,
      generate_with_groq "" net = (none, ["❌ GROQ_API_KEY not configured"])) ∧
    generate_with_groq apiKey NetResult.timeout =
      (none, ["⏱️ Generation timed out"]) ∧
    generate_with_groq apiKey NetResult.connError =
      (none, ["🔌 Cannot connect to Groq API"]) ∧
    (∀ resp : HttpResponse, resp.status ≠ 200 →
      generate_with_groq apiKey (NetResult.ok resp) =
        (none, ["Groq API returned status code: " ++ toString resp.status,
                "Response: " ++ resp.text])) ∧
    (∀ e : String, generate_with_groq apiKey (NetResult.exc e) =
      (none, ["❌ Error generating content: " ++ e])) := by
  refine ⟨fun net => rfl, ?_, ?_, ?_, ?_⟩
  · simp [generate_with_groq, hk]
  · simp [generate_with_groq, hk]
  · intro resp hs
    simp [generate_with_groq, hk, hs]
  · intro e
    simp [generate_with_groq, hk]

/-- Witness for C5 at the key "k" and a timeout outcome. -/
theorem groq_failure_classification_witness :
    ("k" : String) ≠ "" ∧
    generate_with_groq "k" NetResult.timeout =
      (none, ["⏱️ Generation timed out"]) :=
  ⟨by decide, (groq_failure_classification "k" (by decide)).2.1⟩

set_option maxRecDepth 10000 in
/-- Counterexample for C6: on a non-2xx response, `generate_with_groq`
surfaces the full, untruncated response body.  With a 150-character body the
surfaced message is "Response: " followed by all 150 characters (length 160),
and differs from the message built from the body truncated to 100 characters,
so no at-most-100-character snippet bound holds for this call site. -/
theorem groq_nontruncated_body_cex :
    ((generate_with_groq "key" (NetResult.ok ⟨500, longBody, Except.error "boom"⟩)).2).getD 1 ""
      = "Response: " ++ longBody ∧
    ("Response: " ++ longBody).length = 160 ∧
    "Response: " ++ longBody ≠ "Response: " ++ takeChars longBody 100 := by
  refine ⟨rfl, by decide, by decide⟩

/-- Claim C6 as amended: on a non-2xx response both call sites return a
failure value rather than raising; `check_groq_connection` surfaces the status
code with the body truncated to at most 100 characters, while
`generate_with_groq` surfaces the status code and the full response body; a
timeout in the connectivity probe surfaces the timeout message. -/
theorem groq_non2xx_surface (apiKey : String) (hk : apiKey ≠ "")
    (resp : HttpResponse) (hs : resp.status ≠ 200) :
    generate_with_groq apiKey (NetResult.ok resp) =
      (none, ["Groq API returned status code: " ++ toString resp.status,
              "Response: " ++ resp.text]) ∧
    check_groq_connection apiKey (NetResult.ok resp) =
      (false, "Status: " ++ toString resp.status ++ " - " ++ takeChars resp.text 100) ∧
    (takeChars resp.text 100).length ≤ 100 ∧
    check_groq_connection apiKey NetResult.timeout = (false, "Connection timeout") := by
  refine ⟨?_, ?_, ?_, ?_⟩
  · simp [generate_with_groq, hk, hs]
  · simp [check_groq_connection, hk, hs]
  · exact List.length_take_le 100 resp.text.data
  · simp [check_groq_connection, hk]

/-- Witness for C6 (amended) at a concrete 500 response. -/
theorem groq_non2xx_surface_witness :
    ("k" : String) ≠ "" ∧ (500 : Nat) ≠ 200 ∧
    (generate_with_groq "k" (NetResult.ok ⟨500, "boom", Except.error "e"⟩) =
      (none, ["Groq API returned status code: " ++ toString (500 : Nat),
              "Response: " ++ "boom"]) ∧
     check_groq_connection "k" (NetResult.ok ⟨500, "boom", Except.error "e"⟩) =
      (false, "Status: " ++ toString (500 : Nat) ++ " - " ++ takeChars "boom" 100) ∧
     (takeChars "boom" 100).length ≤ 100 ∧
     check_groq_connection "k" NetResult.timeout = (false, "Connection timeout")) :=
  ⟨by decide, by decide,
   groq_non2xx_surface "k" (by decide) ⟨500, "boom", Except.error "e"⟩ (by decide)⟩

/-- Counterexample for C8: a well-formed 200 body whose `choices` array is
present but empty does not degrade to the empty string: the `[0]` index raises
an `IndexError`, the generic handler catches it, and the call returns `None`. -/
theorem empty_choices_cex :
    generate_with_groq "key" (NetResult.ok ⟨200, "", Except.ok ⟨some []⟩⟩) =
      (none, ["❌ Error generating content: list index out of range"]) ∧
    (generate_with_groq "key" (NetResult.ok ⟨200, "", Except.ok ⟨some []⟩⟩)).1 ≠ some "" := by
  refine ⟨rfl, by decide⟩

/-- Claim C8 as amended: on HTTP 200 the client returns the first choice's
message content with surrounding whitespace stripped; an absent `choices` key,
or an absent `message` or `content` field of the first choice, degrades to the
empty string; a present-but-empty `choices` array instead raises an
`IndexError` that the generic handler catches, returning `None`. -/
theorem groq_200_extraction (apiKey : String) (hk : apiKey ≠ "")
    (txt : String) (body : GroqBody) :
    (body.choices = none →
      generate_with_groq apiKey (NetResult.ok ⟨200, txt, Except.ok body⟩) = (some "", [])) ∧
    (∀ c rest, body.choices = some (c :: rest) →
      generate_with_groq apiKey (NetResult.ok ⟨200, txt, Except.ok body⟩) =
        (some (pyStrip ((c.message.getD ⟨none⟩).content.getD "")), [])) ∧
    (body.choices = some [] →
      generate_with_groq apiKey (NetResult.ok ⟨200, txt, Except.ok body⟩) =
        (none, ["❌ Error generating content: list index out of range"])) := by
  refine ⟨?_, ?_, ?_⟩
  · intro hch
    simp [generate_with_groq, hk, extract_content, hch, pyStrip]
  · intro c rest hch
    simp [generate_with_groq, hk, extract_content, hch]
  · intro hch
    simp [generate_with_groq, hk, extract_content, hch]

/-- Witness for C8 (amended): an absent `choices` key degrades to the empty
string, and a first choice with whitespace-padded content is trimmed. -/
theorem groq_200_extraction_witness :
    ("k" : String) ≠ "" ∧
    generate_with_groq "k" (NetResult.ok ⟨200, "", Except.ok ⟨none⟩⟩) = (some "", []) ∧
    generate_with_groq "k"
        (NetResult.ok ⟨200, "", Except.ok ⟨some [⟨some ⟨some "  hi  "⟩⟩]⟩⟩) =
      (some "hi", []) :=
  ⟨by decide,
   (groq_200_extraction "k" (by decide) "" ⟨none⟩).1 rfl,
   (groq_200_extraction "k" (by decide) "" ⟨some [⟨some ⟨some "  hi  "⟩⟩]⟩).2.1
     ⟨some ⟨some "  hi  "⟩⟩ [] rfl⟩

/-- Claim C3: the system prompt contains "Variation #" followed by `n + 1`,
and when the client returns non-empty text the result record echoes that
text, the classified market, the profile's aspiration, and `variation = n + 1`. -/
theorem generate_success_fields (client : String → String → ℚ → Option String)
    (r : ℚ) (now : String) (data : List (String × String)) (n : Nat) (text : String)
    (hcl : client (user_prompt_of data n) (system_prompt_of data n) (temperature r) = some text)
    (ht : text ≠ "") :
    ContainsSub (system_prompt_of data n) ("Variation #" ++ toString (n + 1)) ∧
    generate_cv_sections client r now data n = some
      { text := text
        timestamp := now
        designation := dget data "designation" ""
        market := target_market_of data
        aspiration := dget data "aspiration" ""
        university := dget data "university" ""
        variation := n + 1 } := by
  constructor
  · exact ⟨"You are an expert CV writer for " ++ target_market_of data
      ++ " job markets. \nAlways write exactly 70 words. Write in first person perspective.\nCreate a unique and compelling narrative each time, varying sentence structure and emphasis.\n",
      " - Make this version distinctly different from previous versions.", rfl⟩
  · unfold generate_cv_sections
    rw [hcl]
    simp [ht]

/-- Witness for C3: the spec's end-to-end scenario — aspiration
"New Start-up (Business)", variation index 3, style `styles[3]`, market
"Pakistan", system prompt containing "Variation #4", result `variation = 4`. -/
theorem generate_success_fields_witness :
    startupClient (user_prompt_of startup_data 3) (system_prompt_of startup_data 3)
      (temperature 0) = some "I am an aspiring entrepreneur..." ∧
    ("I am an aspiring entrepreneur..." : String) ≠ "" ∧
    variation_style_of 3 =
      "Start with your adaptability and how you embrace new challenges and learning." ∧
    target_market_of startup_data = "Pakistan" ∧
    (ContainsSub (system_prompt_of startup_data 3) ("Variation #" ++ toString (3 + 1)) ∧
     generate_cv_sections startupClient 0 "ts" startup_data 3 = some
      { text := "I am an aspiring entrepreneur..."
        timestamp := "ts"
        designation := ""
        market := "Pakistan"
        aspiration := "New Start-up (Business)"
        university := ""
        variation := 4 }) :=
  ⟨rfl, by decide, rfl, rfl,
   generate_success_fields startupClient 0 "ts" startup_data 3
     "I am an aspiring entrepreneur..." rfl (by decide)⟩

/-- Claim C10: with `generate_with_groq` as the client, generation returns
`None` when the client fails, when it returns the empty string, and when the
raw 200-response content is whitespace-only (stripped to empty); every
returned record has a non-empty text field. -/
theorem generated_text_nonempty (apiKey now : String) (r : ℚ) (net : NetResult)
    (data : List (String × String)) (n : Nat) :
    ((generate_with_groq apiKey net).1 = none →
      full_generate apiKey net r now data n = none) ∧
    ((generate_with_groq apiKey net).1 = some "" →
      full_generate apiKey net r now data n = none) ∧
    (∀ txt msg rest, net = NetResult.ok ⟨200, txt, Except.ok ⟨some (⟨msg⟩ :: rest)⟩⟩ →
      pyStrip ((msg.getD ⟨none⟩).content.getD "") = "" →
      full_generate apiKey net r now data n = none) ∧
    (∀ res, full_generate apiKey net r now data n = some res → res.text ≠ "") := by
  refine ⟨?_, ?_, ?_, ?_⟩
  · intro hnone
    simp [full_generate, generate_cv_sections, hnone]
  · intro hempty
    simp [full_generate, generate_cv_sections, hempty]
  · intro txt msg rest hnet htrim
    subst hnet
    by_cases hk : apiKey = ""
    · simp [full_generate, generate_cv_sections, generate_with_groq, hk]
    · simp [full_generate, generate_cv_sections, generate_with_groq, hk,
        extract_content, htrim]
  · intro res hres
    unfold full_generate generate_cv_sections at hres
    rcases hv : (generate_with_groq apiKey net).1 with _ | s
    · rw [hv] at hres
      simp at hres
    · rw [hv] at hres
      by_cases hs : s = ""
      · simp [hs] at hres
      · simp [hs] at hres
        intro habs
        rw [← hres] at habs
        exact hs habs

/-- Witness for C10 at a client failure (missing key, timeout outcome). -/
theorem generated_text_nonempty_witness :
    (generate_with_groq "" NetResult.timeout).1 = none ∧
    full_generate "" NetResult.timeout 0 "t" [] 0 = none :=
  ⟨rfl, (generated_text_nonempty "" "t" 0 NetResult.timeout [] 0).1 rfl⟩

/-- Claim C7: an empty achievements field blocks generation with a local
validation message, the session state is unchanged, and the outcome is
independent of the completion client (the client is never invoked). -/
theorem empty_achievements_blocks
    (client client2 : String → String → ℚ → Option String) (r r2 : ℚ)
    (now now2 : String) (state : SessionState) (f : FormFields)
    (h : f.achievements = "") :
    submit_handler client r now state f =
      (state, ["Please fill in all required fields (marked with *)"]) ∧
    submit_handler client r now state f = submit_handler client2 r2 now2 state f := by
  constructor <;> simp [submit_handler, h]

/-- Witness for C7: an empty-achievements form under two different clients. -/
theorem empty_achievements_blocks_witness :
    emptyAchFields.achievements = "" ∧
    (submit_handler okClient 0 "a" state0 emptyAchFields =
      (state0, ["Please fill in all required fields (marked with *)"]) ∧
     submit_handler okClient 0 "a" state0 emptyAchFields =
      submit_handler noneClient 1 "b" state0 emptyAchFields) :=
  ⟨rfl, empty_achievements_blocks okClient noneClient 0 1 "a" "b" state0 emptyAchFields rfl⟩

/-- The first disjunct of `form_changed` is redundant: detection reduces to
content inequality of the whole form dict. -/
theorem form_changed_eq (state : SessionState) (f : FormFields) :
    form_changed state f = decide (state.form_data ≠ build_form_data f) := by
  unfold form_changed
  by_cases hfd : state.form_data = build_form_data f
  · have hasp : dget? (build_form_data f) "aspiration" = some f.aspiration := rfl
    simp [hfd, hasp]
  · simp [hfd]

/-- Claim C9: on a valid submission the new counter equals the base counter
(the old value if the submitted form dict content-equals the stored one,
else zero) plus one exactly when the generation at that base succeeded —
so the counter is incremented once after each success, only after success,
and reset to zero whenever the form data changed. -/
theorem variation_counter_update (client : String → String → ℚ → Option String)
    (r : ℚ) (now : String) (state : SessionState) (f : FormFields)
    (h : f.achievements ≠ "") :
    (submit_handler client r now state f).1.variation_count =
      (if state.form_data = build_form_data f then state.variation_count else 0) +
      (if (generate_cv_sections client r now (build_form_data f)
            (if state.form_data = build_form_data f
             then state.variation_count else 0)).isSome
       then 1 else 0) := by
  simp only [submit_handler, if_neg h, form_changed_eq]
  by_cases hfd : state.form_data = build_form_data f
  · simp only [hfd, ne_eq, not_true_eq_false, decide_False, Bool.false_eq_true,
      if_false, if_true]
    cases hgen : generate_cv_sections client r now (build_form_data f) state.variation_count with
    | none => simp [hgen]
    | some gs => simp [hgen]
  · simp only [ne_eq, hfd, not_false_eq_true, decide_True, if_true, if_neg hfd]
    cases hgen : generate_cv_sections client r now (build_form_data f) 0 with
    | none => simp [hgen]
    | some gs => simp [hgen]

/-- Witness for C9: first submission from the initial state with a
succeeding client. -/
theorem variation_counter_update_witness :
    sampleFields.achievements ≠ "" ∧
    (submit_handler okClient 0 "t" state0 sampleFields).1.variation_count =
      (if state0.form_data = build_form_data sampleFields
       then state0.variation_count else 0) +
      (if (generate_cv_sections okClient 0 "t" (build_form_data sampleFields)
            (if state0.form_data = build_form_data sampleFields
             then state0.variation_count else 0)).isSome
       then 1 else 0) :=
  ⟨by decide, variation_counter_update okClient 0 "t" state0 sampleFields (by decide)⟩
